import Mathlib

/-!
Verification development for the disaster-event simulation layer
(`game/events.py` over the `world` collaborator).

Conventions of the shallow embedding:
* Python `float` arithmetic is embedded as exact rational arithmetic (`ℚ`);
  Python `int` as `ℤ`.
* `int(x)` (truncation toward zero) is `pyInt`; Python 3 `round` (half-to-even)
  is `pyRound`.
* The external noise oracle `perlin_noise` and the two locally seeded
  `random.Random(key)` draws used inside `severity` / `Flood.apply` are
  deterministic functions of their seeds; they are modelled as an `Oracles`
  record of arbitrary deterministic functions.
* The scheduling RNG owned by `EventSystem` (`random.Random`) is modelled as a
  deterministic stream of uniform draws in `[0,1)` together with a cursor;
  `randint` and the guts of `random.choices` are modelled on top of it,
  including the `ValueError` raised by `randint` on an empty range and by
  `choices` on a non-positive total weight (modern CPython).  Failures are
  `Except.error`.
* The world grid, tile record and river/lake registries live in the
  repository's `world/world.py`, which is not part of the sources here; they
  are modelled from the spec (§3, §6): a tile list addressed by coordinate,
  `world.get` returning an optional tile, `rivers` a list of segments,
  `lakes` a list of coordinates.
-/

/-- Python `int(x)` on a real value: truncation toward zero. -/
def pyInt (q : ℚ) : ℤ := if 0 ≤ q then ⌊q⌋ else ⌈q⌉

/-- Python 3 `round(x)` on a real value: round half to even. -/
def pyRound (q : ℚ) : ℤ :=
  let f := ⌊q⌋
  let r := q - f
  if r < 1/2 then f
  else if 1/2 < r then f + 1
  else if f % 2 = 0 then f else f + 1

/-- Python `dict.get(key, default)` on a string-keyed association list. -/
def dictGet (d : List (String × ℚ)) (k : String) (dflt : ℚ) : ℚ :=
  match d.find? (fun kv => kv.1 == k) with
  | some kv => kv.2
  | none => dflt

/-- `SettlementState` from `game/events.py`: the settlement's four counters
and optional anchor location. -/
structure SettlementState where
  resources : ℤ := 100
  population : ℤ := 100
  buildings : ℤ := 10
  defenses : ℤ := 0
  location : Option (ℤ × ℤ) := none
deriving DecidableEq

/-- Modelled from the spec: a river segment of `world.rivers` (§6), with a
start and an end coordinate; `world/world.py` is not among the sources. -/
structure RiverSegment where
  start : ℤ × ℤ
  endp : ℤ × ℤ
deriving DecidableEq

/-- Modelled from the spec: the world tile record (§3), with the fields the
event layer reads and writes; `world/world.py` is not among the sources. -/
structure Hex where
  coord : ℤ × ℤ
  terrain : String
  flooded : Bool := false
  ruined : Bool := false
  river : Bool := false
  lake : Bool := false
  moisture : ℚ := 0
deriving DecidableEq

/-- `WorldSettings` from `world/settings.py`, restricted to the fields the
event layer consumes, with the source's default values. -/
structure WorldSettings where
  seed : ℤ := 0
  weather_patterns : List (String × ℚ) := [("rain", 3/10), ("dry", 5/10), ("snow", 2/10)]
  moisture : ℚ := 1/2
  disaster_intensity : ℚ := 0
  plate_activity : ℚ := 1/2
  world_changes : Bool := true
deriving DecidableEq

/-- Modelled from the spec: the world collaborator (§6) — settings, a tile
store addressed by coordinate, and the river/lake registries;
`world/world.py` is not among the sources. -/
structure World where
  settings : WorldSettings
  tiles : List Hex := []
  rivers : List RiverSegment := []
  lakes : List (ℤ × ℤ) := []
deriving DecidableEq

/-- `world.get(x, y)`: optional tile lookup by coordinate. -/
def World.get (w : World) (x y : ℤ) : Option Hex :=
  w.tiles.find? (fun h => decide (h.coord = (x, y)))

/-- Write back a mutated tile: the functional counterpart of Python's
in-place mutation of the tile record returned by `world.get`. -/
def World.setHex (w : World) (h : Hex) : World :=
  { w with tiles := w.tiles.map (fun t => if t.coord = h.coord then h else t) }

/-- The external deterministic randomness consumed inside event application:
`perlin_noise(x, y, seed, scale=0.1)`, the jitter
`random.Random((x << 16) ^ (y << 8) ^ seed).random() - 0.5`, and Flood's
`random.Random(x*17 + y*23 + seed).randint(0, 1)`, each a pure function of
its seeds. -/
structure Oracles where
  noise : ℤ → ℤ → ℤ → ℚ
  jitter : ℤ → ℤ → ℤ → ℚ
  floodRnd : ℤ → ℤ

/-- The five event variants of `game/events.py` (`ALL_EVENTS`). -/
inductive Event where
  | flood
  | drought
  | raid
  | earthquake
  | hurricane
deriving DecidableEq

/-- The location-dependent factor of `Event.severity` (everything before the
final `* (1 + disaster_intensity)`). -/
def severityBase (o : Oracles) (state : SettlementState) (seed : ℤ) : ℚ :=
  match state.location with
  | none => 1
  | some (x, y) =>
    (3/10 + o.noise x y seed * 3) * (1 + o.jitter x y seed * (2/10))

/-- `Event.severity(state, world)` from `game/events.py`. -/
def severity (o : Oracles) (state : SettlementState) (world : World) : ℚ :=
  severityBase o state world.settings.seed * (1 + world.settings.disaster_intensity)

/-- `Flood.apply` from `game/events.py`. -/
def Flood.apply (o : Oracles) (state : SettlementState) (world : World) :
    SettlementState × World :=
  let sev := severity o state world
  let key := (match state.location with | some l => l.1 | none => 0) * 17 +
    (match state.location with | some l => l.2 | none => 0) * 23 + world.settings.seed
  let loss := max 0 (pyRound (3/10 * (state.buildings : ℚ) * sev) - state.defenses +
    o.floodRnd key)
  let state1 := { state with buildings := max 0 (state.buildings - loss) }
  let res_loss := min state1.resources (pyRound ((loss : ℚ) * 2 * sev))
  let state2 := { state1 with resources := state1.resources - res_loss }
  match state2.location, world.settings.world_changes with
  | some (x, y), true =>
    match world.get x y with
    | some hex0 =>
      let hex1 := { hex0 with flooded := true }
      if 13/10 < sev then
        let hw : Hex × World :=
          if hex1.river then
            ({ hex1 with river := false, lake := true, terrain := "water" },
             { world with
                rivers := world.rivers.filter
                  (fun seg => decide (seg.start ≠ hex1.coord ∧ seg.endp ≠ hex1.coord)),
                lakes := if hex1.coord ∈ world.lakes then world.lakes
                  else world.lakes ++ [hex1.coord] })
          else (hex1, world)
        let hex2 := if hw.1.terrain = "hills" then { hw.1 with terrain := "mountains" }
          else { hw.1 with terrain := "water", lake := true }
        (state2, hw.2.setHex hex2)
      else (state2, world.setHex hex1)
    | none => (state2, world)
  | _, _ => (state2, world)

/-- `Drought.apply` from `game/events.py`. -/
def Drought.apply (o : Oracles) (state : SettlementState) (world : World) :
    SettlementState × World :=
  let sev := severity o state world
  let state1 := { state with
    resources := max 0 (state.resources - pyInt (2/10 * (state.resources : ℚ) * sev)) }
  let state2 := { state1 with
    population := max 0 (state1.population - pyInt (1/10 * (state1.population : ℚ) * sev)) }
  match state2.location, world.settings.world_changes with
  | some (x, y), true =>
    match world.get x y with
    | some hex0 =>
      let hex1 := { hex0 with moisture := max 0 (hex0.moisture - 1/10 * sev) }
      if 13/10 < sev then
        if hex1.lake then
          let hex2 := { hex1 with lake := false, terrain := "plains" }
          let world1 := { world with lakes := world.lakes.filter (fun c => decide (c ≠ hex2.coord)) }
          (state2, world1.setHex hex2)
        else (state2, world.setHex { hex1 with terrain := "desert" })
      else (state2, world.setHex hex1)
    | none => (state2, world)
  | _, _ => (state2, world)

/-- `Raid.apply` from `game/events.py`. -/
def Raid.apply (o : Oracles) (state : SettlementState) (world : World) :
    SettlementState × World :=
  let sev := severity o state world
  let effective := max 1 (pyInt ((5 - (state.defenses : ℚ)) * sev))
  let res_loss := min state.resources (effective * 3)
  let bld_loss := max 0 (effective - 1)
  let state1 := { state with
    resources := state.resources - res_loss,
    buildings := max 0 (state.buildings - bld_loss) }
  match state1.location, world.settings.world_changes with
  | some (x, y), true =>
    match world.get x y with
    | some hex0 =>
      let hex1 := { hex0 with ruined := true }
      if 13/10 < sev then
        let state2 := { state1 with buildings := 0 }
        let hex2 := if hex1.terrain = "hills" then { hex1 with terrain := "mountains" } else hex1
        (state2, world.setHex hex2)
      else (state1, world.setHex hex1)
    | none => (state1, world)
  | _, _ => (state1, world)

/-- `Earthquake.apply` from `game/events.py`. -/
def Earthquake.apply (o : Oracles) (state : SettlementState) (world : World) :
    SettlementState × World :=
  let sev := severity o state world
  let state1 := { state with
    buildings := max 0 (state.buildings - pyInt (4/10 * (state.buildings : ℚ) * sev)),
    population := max 0 (state.population - pyInt (2/10 * (state.population : ℚ) * sev)) }
  match state1.location, world.settings.world_changes with
  | some (x, y), true =>
    match world.get x y with
    | some hex0 =>
      if 13/10 < sev then (state1, world.setHex { hex0 with terrain := "mountains" })
      else (state1, world)
    | none => (state1, world)
  | _, _ => (state1, world)

/-- `Hurricane.apply` from `game/events.py`. -/
def Hurricane.apply (o : Oracles) (state : SettlementState) (world : World) :
    SettlementState × World :=
  let sev := severity o state world
  let loss := max 0 (pyInt (3/10 * (state.buildings : ℚ) * sev) - state.defenses)
  let state1 := { state with buildings := max 0 (state.buildings - loss) }
  let res_loss := min state1.resources (pyInt ((state1.resources : ℚ) * (3/10) * sev))
  let state2 := { state1 with resources := state1.resources - res_loss }
  match state2.location, world.settings.world_changes with
  | some (x, y), true =>
    match world.get x y with
    | some hex0 =>
      let hex1 := { hex0 with flooded := true }
      if 13/10 < sev then
        let hw : Hex × World :=
          if hex1.river then
            ({ hex1 with river := false },
             { world with
                rivers := world.rivers.filter
                  (fun seg => decide (seg.start ≠ hex1.coord ∧ seg.endp ≠ hex1.coord)),
                lakes := if hex1.coord ∈ world.lakes then world.lakes
                  else world.lakes ++ [hex1.coord] })
          else (hex1, world)
        let hex2 := { hw.1 with terrain := "water", lake := true }
        (state2, hw.2.setHex hex2)
      else (state2, world.setHex hex1)
    | none => (state2, world)
  | _, _ => (state2, world)

/-- Dispatch over the closed set of variants. -/
def Event.apply (o : Oracles) (ev : Event) (state : SettlementState) (world : World) :
    SettlementState × World :=
  match ev with
  | .flood => Flood.apply o state world
  | .drought => Drought.apply o state world
  | .raid => Raid.apply o state world
  | .earthquake => Earthquake.apply o state world
  | .hurricane => Hurricane.apply o state world

/-- `ALL_EVENTS` from `game/events.py`, in source order. -/
def ALL_EVENTS : List Event := [.flood, .drought, .raid, .earthquake, .hurricane]

/-- The scheduling RNG owned by `EventSystem`: a deterministic stream of
uniform draws in `[0,1)` plus a cursor, standing in for a seeded
`random.Random` instance. -/
structure RNG where
  stream : ℕ → ℚ
  pos : ℕ

/-- Consume one uniform draw. -/
def RNG.next (r : RNG) : ℚ × RNG := (r.stream r.pos, ⟨r.stream, r.pos + 1⟩)

/-- `random.Random.randint(lo, hi)`: a uniform integer in `[lo, hi]`; raises
`ValueError` (empty range) when `lo > hi`.  The result is derived from one
stream draw and always lands in `[lo, hi]` by construction. -/
def RNG.randint (r : RNG) (lo hi : ℤ) : Except String (ℤ × RNG) :=
  if hi < lo then .error "empty range for randrange"
  else
    let p := r.next
    .ok (lo + (pyInt (p.1 * ((hi - lo + 1 : ℤ) : ℚ))) % (hi - lo + 1), p.2)

/-- Running totals of a weight list, as `random.choices` accumulates them. -/
def cumsum : List ℚ → List ℚ
  | [] => []
  | w :: ws => w :: (cumsum ws).map (fun c => w + c)

/-- `bisect.bisect_right` over the whole cumulative list. -/
def bisectIdx (cum : List ℚ) (target : ℚ) : ℕ :=
  (cum.takeWhile (fun c => decide (c ≤ target))).length

/-- The index selection of `random.Random.choices(population, weights, k=1)`:
raises `ValueError` when the total weight is not positive (modern CPython),
otherwise bisects the cumulative weights at `uniform * total`, capped at
`len - 1`. -/
def choicesIdx (weights : List ℚ) (r : RNG) : Except String (ℕ × RNG) :=
  let cum := cumsum weights
  let total := cum.getLastD 0
  if total ≤ 0 then .error "Total of weights must be greater than zero"
  else
    let p := r.next
    .ok (min (bisectIdx cum (p.1 * total)) (weights.length - 1), p.2)

/-- `minBase` of `EventSystem._schedule_next`:
`10 + int((1 - disaster_intensity) * 20)`. -/
def minBase (di : ℚ) : ℤ := 10 + pyInt ((1 - di) * 20)

/-- `maxBase` of `EventSystem._schedule_next`:
`20 + int((1 - disaster_intensity) * 40)`. -/
def maxBase (di : ℚ) : ℤ := 20 + pyInt ((1 - di) * 40)

/-- `EventSystem._schedule_next` from `game/events.py`: draw
`base ∈ [min_base, max_base]`, scale by the weather factor, truncate, clamp
to at least 2 and offset from the current turn counter. -/
def scheduleNext (settings : WorldSettings) (turn_counter : ℤ) (r : RNG) :
    Except String (ℤ × RNG) :=
  match r.randint (minBase settings.disaster_intensity) (maxBase settings.disaster_intensity) with
  | .error e => .error e
  | .ok (base, r1) =>
    let weather_factor := 1 + settings.moisture * (1/2)
    let delay := max 2 (pyInt ((base : ℚ) * weather_factor))
    .ok (turn_counter + delay, r1)

/-- The default per-type event weights of `EventSystem.__init__`. -/
def defaultEventWeights : List (String × ℚ) :=
  [("flood", 1), ("drought", 1), ("raid", 1), ("earthquake", 1), ("hurricane", 1)]

/-- The five computed weights of `EventSystem._choose_event`, in
`ALL_EVENTS` order. -/
def eventWeights (settings : WorldSettings) (ew : List (String × ℚ)) : List ℚ :=
  let flood_w := dictGet ew "flood" 1 * dictGet settings.weather_patterns "rain" (1/10) *
    settings.moisture
  let drought_w := dictGet ew "drought" 1 * dictGet settings.weather_patterns "dry" (1/10) *
    (1 - settings.moisture)
  let raid_w := dictGet ew "raid" 1
  let earthquake_w := dictGet ew "earthquake" 1 * settings.plate_activity
  let hurricane_w := dictGet ew "hurricane" 1 * dictGet settings.weather_patterns "rain" (1/10) *
    settings.moisture
  [flood_w, drought_w, raid_w, earthquake_w, hurricane_w]

/-- `EventSystem._choose_event` from `game/events.py`. -/
def chooseEvent (settings : WorldSettings) (ew : List (String × ℚ)) (r : RNG) :
    Except String (Event × RNG) :=
  match choicesIdx (eventWeights settings ew) r with
  | .error e => .error e
  | .ok (i, r1) => .ok (ALL_EVENTS.getD i .flood, r1)

/-- The `EventSystem` record: settings, owned RNG, per-type weights and the
two scheduling counters. -/
structure EventSystem where
  settings : WorldSettings
  rng : RNG
  event_weights : List (String × ℚ)
  turn_counter : ℤ
  next_event_turn : ℤ

/-- `EventSystem.__init__`: store settings, RNG and weights (defaulted), set
`turn_counter = 0` and schedule the first event; construction fails when the
initial `_schedule_next` raises. -/
def EventSystem.init (settings : WorldSettings) (r : RNG)
    (ew : Option (List (String × ℚ))) : Except String EventSystem :=
  let weights := ew.getD defaultEventWeights
  match scheduleNext settings 0 r with
  | .error e => .error e
  | .ok (nxt, r1) => .ok ⟨settings, r1, weights, 0, nxt⟩

/-- `EventSystem.advance_turn` from `game/events.py`. -/
def EventSystem.advanceTurn (o : Oracles) (es : EventSystem) (state : SettlementState)
    (world : World) : Except String (Option Event × EventSystem × SettlementState × World) :=
  let es1 := { es with turn_counter := es.turn_counter + 1 }
  if es1.next_event_turn ≤ es1.turn_counter then
    match chooseEvent es1.settings es1.event_weights es1.rng with
    | .error e => .error e
    | .ok (ev, r1) =>
      let sw := Event.apply o ev state world
      match scheduleNext es1.settings es1.turn_counter r1 with
      | .error e => .error e
      | .ok (nxt, r2) =>
        .ok (some ev, { es1 with rng := r2, next_event_turn := nxt }, sw.1, sw.2)
  else .ok (none, es1, state, world)

/-- Iterate `advance_turn` a given number of times, collecting the returned
fired-event values (including the `None` results). -/
def EventSystem.run (o : Oracles) : ℕ → EventSystem → SettlementState → World →
    Except String (List (Option Event) × EventSystem × SettlementState × World)
  | 0, es, st, w => .ok ([], es, st, w)
  | n + 1, es, st, w =>
    match EventSystem.advanceTurn o es st w with
    | .error e => .error e
    | .ok (ev, es1, st1, w1) =>
      match EventSystem.run o n es1 st1 w1 with
      | .error e => .error e
      | .ok (evs, a, b, c) => .ok (ev :: evs, a, b, c)

/-- Second definition for the refinement claim about `_schedule_next`,
following the claim's words: delay-range bounds computed with Python
`round` (`min_base = 10 + round((1 − d)·20)`,
`max_base = 20 + round((1 − d)·40)`), uniform integer draw, multiply by
`1 + moisture·0.5`, floor, clamp to a minimum of 2, add to the turn
counter. -/
def scheduleNextClaim (settings : WorldSettings) (turn_counter : ℤ) (r : RNG) :
    Except String (ℤ × RNG) :=
  let min_base := 10 + pyRound ((1 - settings.disaster_intensity) * 20)
  let max_base := 20 + pyRound ((1 - settings.disaster_intensity) * 40)
  match r.randint min_base max_base with
  | .error e => .error e
  | .ok (base, r1) =>
    let weather_factor := 1 + settings.moisture * (1/2)
    .ok (turn_counter + max 2 ⌊(base : ℚ) * weather_factor⌋, r1)

/-- The amended scheduling formula: as the claim states it, but with both
delay-range bounds and the scaled delay converted by Python `int()`
(truncation toward zero) instead of `round`. -/
def scheduleNextAmended (settings : WorldSettings) (turn_counter : ℤ) (r : RNG) :
    Except String (ℤ × RNG) :=
  let min_base := 10 + pyInt ((1 - settings.disaster_intensity) * 20)
  let max_base := 20 + pyInt ((1 - settings.disaster_intensity) * 40)
  match r.randint min_base max_base with
  | .error e => .error e
  | .ok (base, r1) =>
    let weather_factor := 1 + settings.moisture * (1/2)
    .ok (turn_counter + max 2 (pyInt ((base : ℚ) * weather_factor)), r1)

/-- The spec's topological tile invariant: a flowing river segment never
carries a water-incompatible terrain (desert or mountains). -/
def riverTerrainOk (h : Hex) : Prop :=
  h.river = true → h.terrain ≠ "desert" ∧ h.terrain ≠ "mountains"

instance (h : Hex) : Decidable (riverTerrainOk h) := by
  unfold riverTerrainOk; infer_instance

/-- Decidable check for a tile that violates the river/terrain invariant. -/
def tileViolation : Option Hex → Bool
  | some h => h.river && (h.terrain == "desert" || h.terrain == "mountains")
  | none => false

/-- Does an `Except` carry an error? -/
def exceptFailed : Except String α → Bool
  | .error _ => true
  | .ok _ => false

/-- The `WorldSettings` defaults of `world/settings.py`. -/
def standardSettings : WorldSettings := {}

/-- A concrete deterministic stream for witnesses: every uniform draw is 0. -/
def rng0 : RNG := ⟨fun _ => 0, 0⟩

/-- `rng0` after one draw. -/
def rng1 : RNG := ⟨fun _ => 0, 1⟩

/-- Oracles returning the center of every contract range: noise 0,
jitter 0, flood coin 0. -/
def o0 : Oracles := ⟨fun _ _ _ => 0, fun _ _ _ => 0, fun _ => 0⟩

/-- Oracles with noise pinned at the bottom of the spec's `[-1, 1]` contract
range and zero jitter. -/
def oNeg : Oracles := ⟨fun _ _ _ => -1, fun _ _ _ => 0, fun _ => 0⟩

/-- Oracles making the severity at any located settlement exactly
`2 * (1 + disaster_intensity)`: noise `17/30`, zero jitter. -/
def oSev2 : Oracles := ⟨fun _ _ _ => 17/30, fun _ _ _ => 0, fun _ => 0⟩

/-- A settlement anchored at the origin, all other fields at their source
defaults. -/
def stLocated : SettlementState := { location := some (0, 0) }

/-- A settlement at the origin with `defenses = 5`. -/
def stDefended : SettlementState := { defenses := 5, location := some (0, 0) }

/-- A world with default settings and no tiles at all. -/
def emptyWorld : World := { settings := {} }

/-- A plains tile at the origin carrying a flowing river. -/
def riverHex : Hex := { coord := (0, 0), terrain := "plains", river := true, moisture := 1 }

/-- A world holding `riverHex` and the river segment through it. -/
def riverWorld : World :=
  { settings := {}, tiles := [riverHex], rivers := [⟨(0, 0), (1, 0)⟩] }

/-- Settings of the all-zero-weight scenario: no moisture, no plate
activity. -/
def zeroWeightSettings : WorldSettings :=
  { standardSettings with moisture := 0, plate_activity := 0 }

/-- Per-type weights zeroing drought and raid so that, combined with
`zeroWeightSettings`, all five computed weights vanish. -/
def zeroishWeights : List (String × ℚ) :=
  [("flood", 1), ("drought", 0), ("raid", 0), ("earthquake", 1), ("hurricane", 1)]

/-- Settings exposing the `round` vs `int` discrepancy in the scheduling
bounds: `disaster_intensity = 1/40` makes `(1 − d)·20 = 19.5`. -/
def lowIntensitySettings : WorldSettings :=
  { standardSettings with disaster_intensity := 1/40, moisture := 0 }

/-- Settings whose `weather_patterns` is missing both the `rain` and the
`dry` key. -/
def snowOnlySettings : WorldSettings :=
  { standardSettings with weather_patterns := [("snow", 1/5)] }

/-! ## Claims -/

/-- C1: for every event variant, every settlement state whose resources,
population, buildings and defenses are non-negative, every world and every
value of the external randomness, all four counters are still non-negative
after `apply`; no event rule produces a negative counter value. -/
theorem c1_apply_nonneg (o : Oracles) (ev : Event) (st : SettlementState) (w : World)
    (hr : 0 ≤ st.resources) (hp : 0 ≤ st.population) (hb : 0 ≤ st.buildings)
    (hd : 0 ≤ st.defenses) :
    0 ≤ (Event.apply o ev st w).1.resources ∧ 0 ≤ (Event.apply o ev st w).1.population ∧
    0 ≤ (Event.apply o ev st w).1.buildings ∧ 0 ≤ (Event.apply o ev st w).1.defenses := by
  cases ev <;>
    simp only [Event.apply, Flood.apply, Drought.apply, Raid.apply, Earthquake.apply,
      Hurricane.apply] <;>
    (repeat' split) <;> refine ⟨?_, ?_, ?_, ?_⟩ <;> simp <;> omega

/-- Witness for C1 at a concrete non-negative state. -/
theorem c1_witness :
    0 ≤ (Event.apply oSev2 .flood stLocated riverWorld).1.resources ∧
    0 ≤ (Event.apply oSev2 .flood stLocated riverWorld).1.population ∧
    0 ≤ (Event.apply oSev2 .flood stLocated riverWorld).1.buildings ∧
    0 ≤ (Event.apply oSev2 .flood stLocated riverWorld).1.defenses :=
  c1_apply_nonneg oSev2 .flood stLocated riverWorld
    (of_decide_eq_true (by with_unfolding_all rfl))
    (of_decide_eq_true (by with_unfolding_all rfl))
    (of_decide_eq_true (by with_unfolding_all rfl))
    (of_decide_eq_true (by with_unfolding_all rfl))

/-- Membership in the tiles of a written-back world: the tile is the written
hex or an original tile. -/
theorem mem_of_setHex {w : World} {hx t : Hex} (ht : t ∈ (w.setHex hx).tiles) :
    t = hx ∨ t ∈ w.tiles := by
  simp only [World.setHex, List.mem_map] at ht
  obtain ⟨u, hu, heq⟩ := ht
  by_cases hc : u.coord = hx.coord
  · left; rw [← heq, if_pos hc]
  · right; rw [← heq, if_neg hc]; exact hu

/-- A successful tile lookup returns a member of the tile store. -/
theorem mem_of_get {w : World} {x y : ℤ} {hx : Hex} (hg : w.get x y = some hx) :
    hx ∈ w.tiles :=
  List.mem_of_find?_eq_some hg

/-- `Flood.apply` preserves the river/terrain invariant on every tile: the
severe branch clears the `river` flag before converting terrain. -/
theorem flood_preserves (o : Oracles) (st : SettlementState) (w : World)
    (hw : ∀ h ∈ w.tiles, riverTerrainOk h) :
    ∀ h ∈ (Flood.apply o st w).2.tiles, riverTerrainOk h := by
  rcases hloc : st.location with _ | ⟨x, y⟩
  · simp only [Flood.apply, hloc]; exact hw
  rcases hwc : w.settings.world_changes
  · simp only [Flood.apply, hloc, hwc]; exact hw
  rcases hget : w.get x y with _ | hex0
  · simp only [Flood.apply, hloc, hwc, hget]; exact hw
  by_cases hsev : (13 : ℚ)/10 < severity o st w
  · by_cases hrv : hex0.river = true
    · simp only [Flood.apply, hloc, hwc, hget, hrv, if_pos hsev, reduceIte]
      intro h hm
      rcases mem_of_setHex hm with rfl | hm2
      · simp_all [riverTerrainOk]
      · exact hw _ hm2
    · simp only [Flood.apply, hloc, hwc, hget, hrv, if_pos hsev, reduceIte]
      intro h hm
      rcases mem_of_setHex hm with rfl | hm2
      · by_cases hh : hex0.terrain = "hills" <;> simp_all [riverTerrainOk]
      · exact hw _ hm2
  · simp only [Flood.apply, hloc, hwc, hget, if_neg hsev]
    intro h hm
    rcases mem_of_setHex hm with rfl | hm2
    · have := hw _ (mem_of_get hget)
      simp_all [riverTerrainOk]
    · exact hw _ hm2

/-- `Hurricane.apply` preserves the river/terrain invariant on every tile:
the severe branch always ends with water terrain and a cleared river
flag. -/
theorem hurricane_preserves (o : Oracles) (st : SettlementState) (w : World)
    (hw : ∀ h ∈ w.tiles, riverTerrainOk h) :
    ∀ h ∈ (Hurricane.apply o st w).2.tiles, riverTerrainOk h := by
  rcases hloc : st.location with _ | ⟨x, y⟩
  · simp only [Hurricane.apply, hloc]; exact hw
  rcases hwc : w.settings.world_changes
  · simp only [Hurricane.apply, hloc, hwc]; exact hw
  rcases hget : w.get x y with _ | hex0
  · simp only [Hurricane.apply, hloc, hwc, hget]; exact hw
  by_cases hsev : (13 : ℚ)/10 < severity o st w
  · by_cases hrv : hex0.river = true <;>
      simp only [Hurricane.apply, hloc, hwc, hget, hrv, if_pos hsev, reduceIte] <;>
      intro h hm <;>
      (rcases mem_of_setHex hm with rfl | hm2
       · simp_all [riverTerrainOk]
       · exact hw _ hm2)
  · simp only [Hurricane.apply, hloc, hwc, hget, if_neg hsev]
    intro h hm
    rcases mem_of_setHex hm with rfl | hm2
    · have := hw _ (mem_of_get hget)
      simp_all [riverTerrainOk]
    · exact hw _ hm2

/-- C2, counterexample: a severe Drought on a plains tile carrying a flowing
river leaves `river = true` while setting the terrain to `desert`, so an
`apply` call does reach a tile that is simultaneously a flowing river
segment and a water-incompatible terrain. -/
theorem c2_counterexample :
    riverTerrainOk riverHex ∧ riverHex ∈ riverWorld.tiles ∧
    (13 : ℚ)/10 < severity oSev2 stLocated riverWorld ∧
    tileViolation ((Event.apply oSev2 .drought stLocated riverWorld).2.get 0 0) = true := by
  refine ⟨?_, ?_, ?_, ?_⟩
  · intro hr
    exact ⟨of_decide_eq_true (by with_unfolding_all rfl),
      of_decide_eq_true (by with_unfolding_all rfl)⟩
  · with_unfolding_all decide
  · exact of_decide_eq_true (by with_unfolding_all rfl)
  · with_unfolding_all rfl

/-- C2, amended: Flood and Hurricane preserve the river/terrain invariant
(they clear the `river` flag before converting terrain to water); Drought,
Raid and Earthquake do not touch the `river` flag and can set
water-incompatible terrain on a river tile, as the counterexample shows. -/
theorem c2_flood_hurricane_preserve (o : Oracles) (ev : Event) (st : SettlementState)
    (w : World) (hev : ev = .flood ∨ ev = .hurricane)
    (hw : ∀ h ∈ w.tiles, riverTerrainOk h) :
    ∀ h ∈ (Event.apply o ev st w).2.tiles, riverTerrainOk h := by
  rcases hev with rfl | rfl
  · exact flood_preserves o st w hw
  · exact hurricane_preserves o st w hw

/-- Witness for C2's amended theorem: the tile left behind by a severe
Flood on the river world still satisfies the invariant. -/
theorem c2_witness :
    riverTerrainOk
      { coord := (0, 0), terrain := "water", flooded := true, ruined := false,
        river := false, lake := true, moisture := 1 } :=
  c2_flood_hurricane_preserve oSev2 .flood stLocated riverWorld (Or.inl rfl)
    (of_decide_eq_true (by with_unfolding_all rfl))
    { coord := (0, 0), terrain := "water", flooded := true, ruined := false,
      river := false, lake := true, moisture := 1 }
    (of_decide_eq_true (by with_unfolding_all rfl))

/-- C3, counterexample: with per-type weights zeroing drought and raid,
moisture 0 and plate activity 0, all five computed event weights are zero
and `_choose_event` does not succeed — `random.choices` raises
`ValueError: Total of weights must be greater than zero`. -/
theorem c3_counterexample :
    eventWeights zeroWeightSettings zeroishWeights = [0, 0, 0, 0, 0] ∧
    exceptFailed (chooseEvent zeroWeightSettings zeroishWeights rng0) = true := by
  constructor
  · exact of_decide_eq_true (by with_unfolding_all rfl)
  · with_unfolding_all rfl

/-- C3, amended: a `weather_patterns` mapping missing the `rain` and `dry`
keys contributes the neutral weight `0.1` for each missing key and weighted
selection succeeds whenever the total weight is positive (e.g. with the
default per-type weights, `0 ≤ moisture` and `0 ≤ plate_activity`, the raid
weight alone keeps the total at least 1); but when all five computed
weights are zero, selection raises `ValueError` instead of succeeding. -/
theorem c3_missing_weather_default (s : WorldSettings) (r : RNG)
    (hrain : s.weather_patterns.find? (fun kv => kv.1 == "rain") = none)
    (hdry : s.weather_patterns.find? (fun kv => kv.1 == "dry") = none)
    (hm0 : 0 ≤ s.moisture) (hp : 0 ≤ s.plate_activity) :
    eventWeights s defaultEventWeights =
      [1 * (1/10) * s.moisture, 1 * (1/10) * (1 - s.moisture), 1, 1 * s.plate_activity,
        1 * (1/10) * s.moisture] ∧
    exceptFailed (chooseEvent s defaultEventWeights r) = false := by
  have hew : eventWeights s defaultEventWeights =
      [1 * (1/10) * s.moisture, 1 * (1/10) * (1 - s.moisture), 1, 1 * s.plate_activity,
        1 * (1/10) * s.moisture] := by
    simp [eventWeights, dictGet, hrain, hdry, defaultEventWeights]
  refine ⟨hew, ?_⟩
  have htot : ¬((cumsum (eventWeights s defaultEventWeights)).getLastD 0 ≤ 0) := by
    rw [hew]
    simp [cumsum]
    nlinarith
  simp only [chooseEvent, choicesIdx]
  rw [if_neg htot]
  simp [exceptFailed]

/-- Witness for C3's amended theorem: settings whose weather map holds only
a `snow` entry. -/
theorem c3_witness :
    eventWeights snowOnlySettings defaultEventWeights =
      [1 * (1/10) * snowOnlySettings.moisture,
        1 * (1/10) * (1 - snowOnlySettings.moisture), 1,
        1 * snowOnlySettings.plate_activity, 1 * (1/10) * snowOnlySettings.moisture] ∧
    exceptFailed (chooseEvent snowOnlySettings defaultEventWeights rng0) = false :=
  c3_missing_weather_default snowOnlySettings rng0 (by with_unfolding_all rfl)
    (by with_unfolding_all rfl)
    (of_decide_eq_true (by with_unfolding_all rfl))
    (of_decide_eq_true (by with_unfolding_all rfl))

/-- A world differing from `emptyWorld` only in `disaster_intensity = 1`. -/
def worldDi1 : World := { settings := { standardSettings with disaster_intensity := 1 } }

/-- C4, counterexample: with `disaster_intensity = 0` and a noise oracle
returning `-1` — inside the spec's roughly `[-1, 1]` contract — and zero
jitter, the severity at a located settlement is `(0.3 - 3) = -2.7 < 0`, not
strictly positive. -/
theorem c4_counterexample :
    (0 : ℚ) ≤ emptyWorld.settings.disaster_intensity ∧
    (-1 : ℚ) ≤ oNeg.noise 0 0 emptyWorld.settings.seed ∧
    oNeg.noise 0 0 emptyWorld.settings.seed ≤ 1 ∧
    (-(1/2) : ℚ) ≤ oNeg.jitter 0 0 emptyWorld.settings.seed ∧
    oNeg.jitter 0 0 emptyWorld.settings.seed < 1/2 ∧
    severity oNeg stLocated emptyWorld < 0 := by
  refine ⟨?_, ?_, ?_, ?_, ?_, ?_⟩ <;> exact of_decide_eq_true (by with_unfolding_all rfl)

/-- C4, amended: severity is strictly positive for `disaster_intensity ≥ 0`
provided the noise oracle stays above `-0.1` (so the pre-jitter base
`0.3 + 3n` is positive) and the jitter honours its `≥ -0.5` contract; noise
values in `[-1, -0.1]` from the stated contract range can make severity
zero or negative. -/
theorem c4_severity_pos (o : Oracles) (st : SettlementState) (w : World)
    (hdi : 0 ≤ w.settings.disaster_intensity)
    (hn : ∀ x y : ℤ, -(1/10) < o.noise x y w.settings.seed)
    (hj : ∀ x y : ℤ, -(1/2) ≤ o.jitter x y w.settings.seed) :
    0 < severity o st w := by
  have h1 : (0 : ℚ) < 1 + w.settings.disaster_intensity := by linarith
  have hbase : 0 < severityBase o st w.settings.seed := by
    rcases hst : st.location with _ | ⟨x, y⟩ <;> simp only [severityBase, hst]
    · norm_num
    · have hn1 := hn x y
      have hj1 := hj x y
      have ha : (0 : ℚ) < 3/10 + o.noise x y w.settings.seed * 3 := by linarith
      have hb : (0 : ℚ) < 1 + o.jitter x y w.settings.seed * (2/10) := by linarith
      exact mul_pos ha hb
  exact mul_pos hbase h1

/-- Witness for C4's amended theorem: centered oracles at the default
world. -/
theorem c4_witness : 0 < severity o0 stLocated emptyWorld :=
  c4_severity_pos o0 stLocated emptyWorld (of_decide_eq_true (by with_unfolding_all rfl))
    (fun x y => of_decide_eq_true (by with_unfolding_all rfl))
    (fun x y => of_decide_eq_true (by with_unfolding_all rfl))

/-- C5, counterexample: with noise `-1` (a negative severity base), raising
`disaster_intensity` from 0 to 1 with every other input fixed strictly
lowers severity, refuting monotonicity. -/
theorem c5_counterexample :
    emptyWorld.settings.disaster_intensity ≤ worldDi1.settings.disaster_intensity ∧
    emptyWorld.settings.seed = worldDi1.settings.seed ∧
    severity oNeg stLocated worldDi1 < severity oNeg stLocated emptyWorld := by
  refine ⟨?_, ?_, ?_⟩ <;> exact of_decide_eq_true (by with_unfolding_all rfl)

/-- C5, amended: for a fixed location and seed, severity is non-decreasing
in `disaster_intensity` whenever the location-dependent severity base is
non-negative (always true for an absent location; guaranteed for noise
above `-0.1` with in-contract jitter); a negative base reverses the
monotonicity, as the counterexample shows. -/
theorem c5_severity_monotone (o : Oracles) (st : SettlementState) (w : World) (d1 d2 : ℚ)
    (hbase : 0 ≤ severityBase o st w.settings.seed) (h12 : d1 ≤ d2) :
    severity o st { w with settings := { w.settings with disaster_intensity := d1 } } ≤
    severity o st { w with settings := { w.settings with disaster_intensity := d2 } } := by
  show severityBase o st w.settings.seed * (1 + d1) ≤
    severityBase o st w.settings.seed * (1 + d2)
  exact mul_le_mul_of_nonneg_left (by linarith) hbase

/-- Witness for C5's amended theorem: centered oracles, intensities 0 and
1. -/
theorem c5_witness :
    severity o0 stLocated
      { emptyWorld with settings := { emptyWorld.settings with disaster_intensity := 0 } } ≤
    severity o0 stLocated
      { emptyWorld with settings := { emptyWorld.settings with disaster_intensity := 1 } } :=
  c5_severity_monotone o0 stLocated emptyWorld 0 1
    (of_decide_eq_true (by with_unfolding_all rfl))
    (of_decide_eq_true (by with_unfolding_all rfl))

/-- C6, counterexample: at `disaster_intensity = 1/40` (so
`(1 − d)·20 = 19.5`) and moisture 0, the code draws its minimum delay from
`min_base = 10 + int(19.5) = 29`, while the claim's `round` formula gives
`min_base = 30`; with the all-zeros stream the code schedules turn 29,
below the claim's smallest possible result 30. -/
theorem c6_counterexample :
    (scheduleNext lowIntensitySettings 0 rng0).toOption.map Prod.fst = some 29 ∧
    (scheduleNextClaim lowIntensitySettings 0 rng0).toOption.map Prod.fst = some 30 := by
  exact ⟨by with_unfolding_all rfl, by with_unfolding_all rfl⟩

/-- C6, amended: the scheduling rule computes
`min_base = 10 + int((1 − d)·20)` and `max_base = 20 + int((1 − d)·40)`
with Python `int()` truncation toward zero (not `round`), draws a uniform
integer `base` in `[min_base, max_base]`, multiplies by
`1 + moisture·0.5`, truncates toward zero, clamps to a minimum of 2, and
adds the result to the current turn counter. -/
theorem c6_schedule_formula (s : WorldSettings) (tc : ℤ) (r : RNG) :
    scheduleNext s tc r = scheduleNextAmended s tc r := rfl

/-- A successful `randint` lands inside the requested range. -/
theorem randint_ok_bounds {r : RNG} {lo hi v : ℤ} {r1 : RNG}
    (h : r.randint lo hi = .ok (v, r1)) : lo ≤ v ∧ v ≤ hi := by
  unfold RNG.randint at h
  split at h
  · exact absurd h (by simp)
  · next hlt =>
    simp only [Except.ok.injEq, Prod.mk.injEq] at h
    obtain ⟨hv, _⟩ := h
    have hle : lo ≤ hi := by omega
    have hm : 0 < hi - lo + 1 := by omega
    have h0 : 0 ≤ pyInt (r.next.1 * ((hi - lo + 1 : ℤ) : ℚ)) % (hi - lo + 1) :=
      Int.emod_nonneg _ (by omega)
    have h1 : pyInt (r.next.1 * ((hi - lo + 1 : ℤ) : ℚ)) % (hi - lo + 1) < hi - lo + 1 :=
      Int.emod_lt_of_pos _ hm
    omega

/-- C7: whenever `_schedule_next` succeeds with `0 ≤ disaster_intensity ≤ 1`
and `moisture ≥ 0`, the scheduled gap `next_event_turn − turn_counter` lies
in `[2, ceil(max_base · (1 + moisture·0.5))]`. -/
theorem c7_schedule_bounds (s : WorldSettings) (tc : ℤ) (r : RNG) (nxt : ℤ) (r1 : RNG)
    (hd0 : 0 ≤ s.disaster_intensity) (hd1 : s.disaster_intensity ≤ 1)
    (hmo : 0 ≤ s.moisture)
    (hok : scheduleNext s tc r = .ok (nxt, r1)) :
    2 ≤ nxt - tc ∧
    nxt - tc ≤ ⌈(maxBase s.disaster_intensity : ℚ) * (1 + s.moisture * (1/2))⌉ := by
  unfold scheduleNext at hok
  rcases hr : r.randint (minBase s.disaster_intensity) (maxBase s.disaster_intensity)
    with e | ⟨v, r2⟩ <;> rw [hr] at hok
  · exact absurd hok (by simp)
  obtain ⟨hlov, hvhi⟩ := randint_ok_bounds hr
  simp only [Except.ok.injEq, Prod.mk.injEq] at hok
  obtain ⟨hnxt, _⟩ := hok
  have hwf : (1 : ℚ) ≤ 1 + s.moisture * (1/2) := by linarith
  have hminb : 10 ≤ minBase s.disaster_intensity := by
    have hnn : (0 : ℚ) ≤ (1 - s.disaster_intensity) * 20 := by nlinarith
    have hfl := Int.floor_nonneg.mpr hnn
    unfold minBase pyInt
    rw [if_pos hnn]
    omega
  have hmaxb : 20 ≤ maxBase s.disaster_intensity := by
    have hnn : (0 : ℚ) ≤ (1 - s.disaster_intensity) * 40 := by nlinarith
    have hfl := Int.floor_nonneg.mpr hnn
    unfold maxBase pyInt
    rw [if_pos hnn]
    omega
  have hv0 : (0 : ℤ) ≤ v := by omega
  have hvq : (0 : ℚ) ≤ (v : ℚ) * (1 + s.moisture * (1/2)) := by
    have : (0 : ℚ) ≤ (v : ℚ) := by exact_mod_cast hv0
    nlinarith
  have hdel : pyInt ((v : ℚ) * (1 + s.moisture * (1/2))) =
      ⌊(v : ℚ) * (1 + s.moisture * (1/2))⌋ := by
    unfold pyInt; rw [if_pos hvq]
  have hub : ⌊(v : ℚ) * (1 + s.moisture * (1/2))⌋ ≤
      ⌈(maxBase s.disaster_intensity : ℚ) * (1 + s.moisture * (1/2))⌉ := by
    have hle : (v : ℚ) * (1 + s.moisture * (1/2)) ≤
        (maxBase s.disaster_intensity : ℚ) * (1 + s.moisture * (1/2)) := by
      have hvc : (v : ℚ) ≤ (maxBase s.disaster_intensity : ℚ) := by exact_mod_cast hvhi
      nlinarith
    exact le_trans (Int.floor_mono hle) (Int.floor_le_ceil _)
  have h2b : (2 : ℤ) ≤ ⌈(maxBase s.disaster_intensity : ℚ) * (1 + s.moisture * (1/2))⌉ := by
    have h20 : (20 : ℚ) ≤ (maxBase s.disaster_intensity : ℚ) * (1 + s.moisture * (1/2)) := by
      have hc : (20 : ℚ) ≤ (maxBase s.disaster_intensity : ℚ) := by exact_mod_cast hmaxb
      nlinarith
    have := Int.ceil_mono h20
    rw [show ⌈(20 : ℚ)⌉ = 20 by norm_num] at this
    omega
  constructor
  · omega
  · rw [← hnxt]
    rw [hdel] at *
    have heq : tc + max 2 ⌊(v : ℚ) * (1 + s.moisture * (1/2))⌋ - tc =
        max 2 ⌊(v : ℚ) * (1 + s.moisture * (1/2))⌋ := by omega
    rw [heq]
    exact max_le h2b hub

/-- Witness for C7 at the default settings and the all-zeros stream: the
first schedule lands on turn 37 and `37 ∈ [2, ceil(60 · 1.25)] = [2, 75]`. -/
theorem c7_witness :
    2 ≤ (37 : ℤ) - 0 ∧
    (37 : ℤ) - 0 ≤ ⌈(maxBase standardSettings.disaster_intensity : ℚ) *
      (1 + standardSettings.moisture * (1/2))⌉ :=
  c7_schedule_bounds standardSettings 0 rng0 37 rng1
    (of_decide_eq_true (by with_unfolding_all rfl))
    (of_decide_eq_true (by with_unfolding_all rfl))
    (of_decide_eq_true (by with_unfolding_all rfl))
    (by with_unfolding_all rfl)

/-- C8, counterexample: a severe Raid (`severity = 2 > 1.3`) on a located
settlement whose tile lookup returns nothing leaves `buildings = 10`; the
forced `buildings = 0` rule sits inside the tile-present branch and is
skipped, contradicting the claim that all damage rules still run. -/
theorem c8_counterexample :
    (13 : ℚ)/10 < severity oSev2 stDefended emptyWorld ∧
    emptyWorld.get 0 0 = none ∧
    stDefended.location = some (0, 0) ∧
    (Event.apply oSev2 .raid stDefended emptyWorld).1.buildings = 10 := by
  refine ⟨of_decide_eq_true (by with_unfolding_all rfl), by with_unfolding_all rfl,
    by with_unfolding_all rfl, of_decide_eq_true (by with_unfolding_all rfl)⟩

/-- C8, amended: when the tile lookup at the settlement's location returns
nothing, `apply` leaves the world untouched and produces exactly the
settlement state it would produce with terrain mutation disabled — every
damage rule preceding the tile lookup still runs, but Raid's severe-raid
building-zeroing lives inside the tile-present branch and is skipped
along with the terrain mutation. -/
theorem c8_missing_tile (o : Oracles) (ev : Event) (st : SettlementState) (w : World)
    (x y : ℤ) (hloc : st.location = some (x, y)) (hget : w.get x y = none) :
    (Event.apply o ev st w).2 = w ∧
    (Event.apply o ev st w).1 =
      (Event.apply o ev st
        { w with settings := { w.settings with world_changes := false } }).1 := by
  cases ev <;> rcases hwc : w.settings.world_changes <;> refine ⟨?_, ?_⟩ <;>
    simp only [Event.apply, Flood.apply, Drought.apply, Raid.apply, Earthquake.apply,
      Hurricane.apply, hloc, hget, hwc] <;> rfl

/-- Witness for C8's amended theorem: the severe Raid of the
counterexample. -/
theorem c8_witness :
    (Event.apply oSev2 .raid stDefended emptyWorld).2 = emptyWorld ∧
    (Event.apply oSev2 .raid stDefended emptyWorld).1 =
      (Event.apply oSev2 .raid stDefended
        { emptyWorld with
          settings := { emptyWorld.settings with world_changes := false } }).1 :=
  c8_missing_tile oSev2 .raid stDefended emptyWorld 0 0 (by with_unfolding_all rfl)
    (by with_unfolding_all rfl)

/-- The event system produced by `EventSystem.init standardSettings rng0
none`: first event scheduled for turn 37, one stream draw consumed. -/
def esInit : EventSystem := ⟨standardSettings, rng1, defaultEventWeights, 0, 37⟩

/-- C9: the simulation is a pure function of the seeded RNG state, the
settings, the per-type weights, the oracle functions and the initial
settlement/world — two runs from equal inputs yield the same sequence of
fired events (including the `None` results) and the same final settlement
state.  All randomness consumed by `advance_turn` is explicit in these
inputs: the owned RNG stream plus the location-and-seed-keyed oracles. -/
theorem c9_determinism (o : Oracles) (n : ℕ) (es1 es2 : EventSystem)
    (st1 st2 : SettlementState) (w1 w2 : World)
    (hes : es1 = es2) (hst : st1 = st2) (hw : w1 = w2) :
    EventSystem.run o n es1 st1 w1 = EventSystem.run o n es2 st2 w2 := by
  subst hes hst hw
  rfl

/-- Witness for C9: two two-turn runs from the freshly initialised system. -/
theorem c9_witness :
    EventSystem.run o0 2 esInit stLocated riverWorld =
      EventSystem.run o0 2 esInit stLocated riverWorld :=
  c9_determinism o0 2 esInit esInit stLocated stLocated riverWorld riverWorld rfl rfl rfl

/-- The malformed settings of C10: `disaster_intensity = 2`. -/
def highIntensitySettings : WorldSettings :=
  { standardSettings with disaster_intensity := 2 }

/-- C10: at the non-negative `disaster_intensity = 2` the computed
`min_base = 0` exceeds `max_base = -20`, the uniform draw's precondition is
violated and both `_schedule_next` and `EventSystem` construction fail with
`ValueError`; scheduling is total exactly under the precondition
`min_base ≤ max_base`. -/
theorem c10_schedule_partial :
    (0 : ℚ) ≤ highIntensitySettings.disaster_intensity ∧
    maxBase highIntensitySettings.disaster_intensity <
      minBase highIntensitySettings.disaster_intensity ∧
    exceptFailed (scheduleNext highIntensitySettings 0 rng0) = true ∧
    exceptFailed (EventSystem.init highIntensitySettings rng0 none) = true ∧
    ∀ (s : WorldSettings) (tc : ℤ) (r : RNG),
      minBase s.disaster_intensity ≤ maxBase s.disaster_intensity →
      exceptFailed (scheduleNext s tc r) = false := by
  refine ⟨of_decide_eq_true (by with_unfolding_all rfl),
    of_decide_eq_true (by with_unfolding_all rfl),
    by with_unfolding_all rfl, by with_unfolding_all rfl, ?_⟩
  intro s tc r hle
  unfold scheduleNext RNG.randint
  rw [if_neg (not_lt.mpr hle)]
  simp [exceptFailed]

/-- Witness for C10's totality part: the default settings satisfy the
precondition and scheduling succeeds. -/
theorem c10_witness : exceptFailed (scheduleNext standardSettings 0 rng0) = false :=
  c10_schedule_partial.2.2.2.2 standardSettings 0 rng0
    (of_decide_eq_true (by with_unfolding_all rfl))
